import Mathlib

/-!
Verification of the tenant-app repository's logical core (`src/app2.py`):
the due-date calculator `calculate_due_date`, the payment-status classifier
`get_payment_status`, and the record-store operations performed in `main`
(bulk status recomputation, status summary counts, indexed row deletion)
together with the schema migration in `load_history`.

Embedding conventions:
* A calendar date is an integer day number (days since an arbitrary epoch).
  `pandas` timestamp arithmetic at day granularity — `prev + timedelta(days=f)`,
  `due < today`, `(due - today).days` — is exactly integer arithmetic on day
  numbers, since every date handled by the program is a plain `YYYY-MM-DD`
  value with no time-of-day component.
* A date-valued cell is a `DateField`: `absent` models `NaN` / the empty
  string (the `pd.isna(x) or x == ""` guard), `unparseable` models text that
  makes `pd.to_datetime` raise (the bare `except` branch), and `date d` models
  text that parses to day number `d`.
* `today` (read in the source from `datetime.now().date()`) is passed as an
  explicit parameter, standing for the Clock collaborator.
-/

/-- A date-valued field as the Python code sees it after its guards:
missing (`NaN`/empty string), present but unparseable, or a parsed date. -/
inductive DateField where
  | absent : DateField
  | unparseable : DateField
  | date : Int → DateField
deriving DecidableEq

/-- The five payment statuses the classifier can produce. -/
inductive Status where
  | unknown : Status
  | overdue : Status
  | dueToday : Status
  | dueSoon : Status
  | upcoming : Status
deriving DecidableEq

/-- The exact strings `get_payment_status` returns in `src/app2.py`. -/
def Status.text : Status → String
  | .unknown => "Unknown"
  | .overdue => "Overdue"
  | .dueToday => "Due Today"
  | .dueSoon => "Due Soon"
  | .upcoming => "Upcoming"

/-- `calculate_due_date` (src/app2.py lines 45-54): absent or empty input
returns `""` (absent); a parse failure is swallowed and returns `""`; a
parsed date is shifted by `frequency_days` calendar days and re-serialized
(hence again a parseable date). -/
def calculate_due_date (previous_date : DateField) (frequency_days : Int) : DateField :=
  match previous_date with
  | .absent => .absent
  | .unparseable => .absent
  | .date prev => .date (prev + frequency_days)

/-- `get_payment_status` (src/app2.py lines 56-74): absent/empty input is
`Unknown`; a parse failure is swallowed to `Unknown`; otherwise the
`if/elif` chain compares the due date to `today`. -/
def get_payment_status (due_date : DateField) (today : Int) : Status :=
  match due_date with
  | .absent => .unknown
  | .unparseable => .unknown
  | .date due =>
    if due < today then .overdue
    else if due = today then .dueToday
    else if due - today ≤ 7 then .dueSoon
    else .upcoming

/-- C1: over parseable due dates the classifier realises exactly the four
documented buckets: `Overdue` iff `due < today`, `Due Today` iff `due = today`,
`Due Soon` iff `today < due ∧ due - today ≤ 7`, `Upcoming` iff
`due - today > 7`; the 7-day boundary lands in `Due Soon` and the 8-day one in
`Upcoming`; and a parseable date is never `Unknown`, so the four buckets are
mutually exclusive and exhaustive over parseable dates. -/
theorem get_payment_status_buckets (due today : Int) :
    (get_payment_status (.date due) today = .overdue ↔ due < today) ∧
    (get_payment_status (.date due) today = .dueToday ↔ due = today) ∧
    (get_payment_status (.date due) today = .dueSoon ↔ today < due ∧ due - today ≤ 7) ∧
    (get_payment_status (.date due) today = .upcoming ↔ due - today > 7) ∧
    get_payment_status (.date (today + 7)) today = .dueSoon ∧
    get_payment_status (.date (today + 8)) today = .upcoming ∧
    get_payment_status (.date due) today ≠ .unknown := by
  refine ⟨?_, ?_, ?_, ?_, ?_, ?_, ?_⟩ <;>
    simp only [get_payment_status] <;> split_ifs <;> simp_all <;> omega

/-- C2: for a parseable reference date the calculator returns the date
advanced by exactly `f` calendar days, and an absent reference date yields an
absent due date. -/
theorem calculate_due_date_adds_days (d f : Int) (hf : 0 < f) :
    calculate_due_date (.date d) f = .date (d + f) ∧
    calculate_due_date .absent f = .absent := by
  exact ⟨rfl, rfl⟩

/-- Witness for C2 at `d = 0`, `f = 30`. -/
theorem calculate_due_date_adds_days_witness :
    (0 : Int) < 30 ∧
    (calculate_due_date (.date 0) 30 = .date 30 ∧
     calculate_due_date .absent 30 = .absent) :=
  ⟨by decide, calculate_due_date_adds_days 0 30 (by decide)⟩

/-- C7: neither operation ever raises to its caller: the classifier maps an
absent or unparseable due date to `Unknown`, and the calculator maps an
absent or unparseable reference date to the absent due date. -/
theorem date_errors_swallowed (today f : Int) :
    get_payment_status .absent today = .unknown ∧
    get_payment_status .unparseable today = .unknown ∧
    calculate_due_date .absent f = .absent ∧
    calculate_due_date .unparseable f = .absent :=
  ⟨rfl, rfl, rfl, rfl⟩

/-- C10: the calculator enforces no positivity on `frequency_days`: for any
integer `f`, zero or negative included, a parseable reference date is shifted
by exactly `f` days (backwards in time when `f` is negative). -/
theorem calculate_due_date_any_frequency :
    (∀ d f : Int, calculate_due_date (.date d) f = .date (d + f)) ∧
    calculate_due_date (.date 0) (-5) = .date (-5) ∧
    calculate_due_date (.date 0) 0 = .date 0 :=
  ⟨fun _ _ => rfl, rfl, rfl⟩

/-- One row of `tenant_history.csv`: the seventeen columns built in `main`
(src/app2.py lines 133-161). All cells are stored as text except
`Next Payment Due Date`, kept here in its parsed form (`DateField`) because
every use of that column first runs it through `pd.to_datetime`. -/
structure TenantRecord where
  bhk : String
  size : String
  bathroom : String
  furnishingStatus : String
  tenantPreferred : String
  city : String
  pointOfContact : String
  areaLocality : String
  postedOn : String
  areaType : String
  floor : String
  predictedRent : String
  tenantName : String
  telephoneNumber : String
  previousPaymentDate : String
  nextPaymentDueDate : DateField
  paymentStatus : String
deriving DecidableEq

/-- The bulk status recomputation in `main` (src/app2.py line 185):
`history_df["Payment Status"] = history_df["Next Payment Due Date"].apply(get_payment_status)`,
overwriting every row's status with the classifier applied to that row's
stored due date and the current day. -/
def recomputeStatuses (records : List TenantRecord) (today : Int) : List TenantRecord :=
  records.map fun r =>
    { r with paymentStatus := (get_payment_status r.nextPaymentDueDate today).text }

/-- The per-status tally behind `value_counts().get(s, 0)` in `main`
(src/app2.py lines 217-227): the number of current records whose stored
`Payment Status` cell is the text of `s` (`0` when the value never occurs). -/
def summaryCounts (records : List TenantRecord) (s : Status) : Nat :=
  (records.filter fun r => r.paymentStatus == s.text).length

/-- The one error the delete operation can produce (an out-of-range row
label, raised as `KeyError` by `DataFrame.drop` in the source). -/
inductive DeleteError where
  | indexOutOfRange : DeleteError
deriving DecidableEq

/-- The delete step in `main` (src/app2.py lines 238-239):
`drop(index=i)` followed by `reset_index`. Row labels equal positions
`0..n-1`, so an in-range label removes the row at that position and
re-compacts; an out-of-range label raises and nothing is dropped. -/
def deleteRow (records : List TenantRecord) (i : Int) :
    Except DeleteError (List TenantRecord) :=
  if 0 ≤ i ∧ i < records.length then .ok (records.eraseIdx i.toNat)
  else .error DeleteError.indexOutOfRange

/-- The whole delete action around `deleteRow`: on success the shortened
list replaces the store (and is flushed, src/app2.py line 240); on failure
the exception propagates to the caller and the store is kept as it was. -/
def deleteAction (records : List TenantRecord) (i : Int) :
    List TenantRecord × Option DeleteError :=
  match deleteRow records i with
  | .ok kept => (kept, none)
  | .error e => (records, some e)

/-- After recomputation every record's status cell is the classifier text
for its own due date (shared helper). -/
theorem recompute_status_text (records : List TenantRecord) (today : Int) :
    ∀ r ∈ recomputeStatuses records today,
      r.paymentStatus = (get_payment_status r.nextPaymentDueDate today).text := by
  intro r hr
  simp only [recomputeStatuses, List.mem_map] at hr
  obtain ⟨r₀, _, rfl⟩ := hr
  rfl

/-- C3: after the bulk recomputation with a given `today`, every record in
the store carries exactly the classifier's verdict on its own stored due
date. -/
theorem recompute_gives_classifier (records : List TenantRecord) (today : Int) :
    ∀ r ∈ recomputeStatuses records today,
      r.paymentStatus = (get_payment_status r.nextPaymentDueDate today).text :=
  recompute_status_text records today

/-- A concrete seventeen-column row used to instantiate store theorems. -/
def sampleRecord : TenantRecord :=
  { bhk := "2", size := "950", bathroom := "2",
    furnishingStatus := "Unfurnished", tenantPreferred := "Bachelors",
    city := "Mumbai", pointOfContact := "Contact Owner",
    areaLocality := "Andheri West", postedOn := "2024-05-01",
    areaType := "Super Area", floor := "5 out of 10",
    predictedRent := "15000.0", tenantName := "A. Tenant",
    telephoneNumber := "0000000000", previousPaymentDate := "2024-05-01",
    nextPaymentDueDate := .date 5, paymentStatus := "" }

/-- Witness for C3 on a one-record store with due date `5` and `today = 0`. -/
theorem recompute_gives_classifier_witness :
    ({ sampleRecord with paymentStatus := "Due Soon" } ∈ recomputeStatuses [sampleRecord] 0) ∧
    ({ sampleRecord with paymentStatus := "Due Soon" } : TenantRecord).paymentStatus =
      (get_payment_status
        ({ sampleRecord with paymentStatus := "Due Soon" } : TenantRecord).nextPaymentDueDate 0).text :=
  ⟨by decide, recompute_gives_classifier [sampleRecord] 0 _ (by decide)⟩

/-- C9: recomputing statuses twice with the same `today` is the same as
recomputing once. -/
theorem recompute_idempotent (records : List TenantRecord) (today : Int) :
    recomputeStatuses (recomputeStatuses records today) today =
      recomputeStatuses records today := by
  simp only [recomputeStatuses, List.map_map]
  rfl

/-- When every status cell in a list is one of the five classifier texts,
the five per-status tallies sum to the list length (helper for C6). -/
theorem counts_cover_length (records : List TenantRecord)
    (h : ∀ r ∈ records, ∃ s : Status, r.paymentStatus = s.text) :
    summaryCounts records .unknown + summaryCounts records .overdue +
      summaryCounts records .dueToday + summaryCounts records .dueSoon +
      summaryCounts records .upcoming = records.length := by
  induction records with
  | nil => rfl
  | cons r rest ih =>
    obtain ⟨s, hs⟩ := h r (List.mem_cons_self r rest)
    have ih := ih fun x hx => h x (List.mem_cons_of_mem r hx)
    cases s <;>
      simp only [summaryCounts, List.filter_cons, hs, Status.text,
        List.length_cons, beq_iff_eq, String.reduceEq, if_true, if_false,
        reduceIte] at * <;>
      omega

/-- C6: after a recomputation with any `today`, each of the five statuses
has a well-defined count and the five counts together account for every
record in the store. -/
theorem summaryCounts_total (records : List TenantRecord) (today : Int) :
    summaryCounts (recomputeStatuses records today) .unknown +
      summaryCounts (recomputeStatuses records today) .overdue +
      summaryCounts (recomputeStatuses records today) .dueToday +
      summaryCounts (recomputeStatuses records today) .dueSoon +
      summaryCounts (recomputeStatuses records today) .upcoming =
      records.length := by
  have h := counts_cover_length (recomputeStatuses records today)
    (fun r hr => ⟨_, recompute_status_text records today r hr⟩)
  simpa [recomputeStatuses] using h

/-- C4: an in-range delete succeeds, shortens the store by exactly one,
keeps every record below the deleted position in place, and shifts every
record above it down by one. -/
theorem deleteRow_in_range (records : List TenantRecord) (i : Nat)
    (h : i < records.length) :
    ∃ kept, deleteRow records i = .ok kept ∧
      kept.length = records.length - 1 ∧
      (∀ j, j < i → kept[j]? = records[j]?) ∧
      (∀ j, i ≤ j → kept[j]? = records[j + 1]?) := by
  refine ⟨records.eraseIdx i, ?_, List.length_eraseIdx_of_lt h,
    fun j hj => List.getElem?_eraseIdx_of_lt records i j hj,
    fun j hj => List.getElem?_eraseIdx_of_ge records i j hj⟩
  have hcond : (0 : Int) ≤ i ∧ (i : Int) < records.length := by
    constructor
    · exact Int.ofNat_nonneg i
    · exact_mod_cast h
  simp [deleteRow, hcond]

/-- Witness for C4: deleting position `0` of a one-record store. -/
theorem deleteRow_in_range_witness :
    0 < ([sampleRecord] : List TenantRecord).length ∧
    (∃ kept, deleteRow [sampleRecord] 0 = .ok kept ∧
      kept.length = ([sampleRecord] : List TenantRecord).length - 1 ∧
      (∀ j, j < 0 → kept[j]? = ([sampleRecord] : List TenantRecord)[j]?) ∧
      (∀ j, 0 ≤ j → kept[j]? = ([sampleRecord] : List TenantRecord)[j + 1]?)) :=
  ⟨by decide, deleteRow_in_range [sampleRecord] 0 (by decide)⟩

/-- C5: an out-of-range delete (negative index or index at or past the
length) reports `IndexOutOfRange` to the caller and leaves the store
exactly as it was. -/
theorem deleteAction_out_of_range (records : List TenantRecord) (i : Int)
    (h : i < 0 ∨ (records.length : Int) ≤ i) :
    deleteAction records i = (records, some DeleteError.indexOutOfRange) := by
  have hcond : ¬ ((0 : Int) ≤ i ∧ i < (records.length : Int)) := by omega
  simp [deleteAction, deleteRow, hcond]

/-- Witness for C5: deleting index `5` from a one-record store. -/
theorem deleteAction_out_of_range_witness :
    ((5 : Int) < 0 ∨ (([sampleRecord] : List TenantRecord).length : Int) ≤ 5) ∧
    deleteAction [sampleRecord] 5 = ([sampleRecord], some DeleteError.indexOutOfRange) :=
  ⟨Or.inr (by decide), deleteAction_out_of_range [sampleRecord] 5 (Or.inr (by decide))⟩

/-- The seventeen required column names checked by `load_history`
(src/app2.py lines 29-33), in source order. -/
def required_cols : List String :=
  ["BHK", "Size", "Bathroom", "Furnishing Status", "Tenant Preferred",
   "City", "Point of Contact", "Area Locality", "Posted On", "Area Type",
   "Floor", "Predicted Rent", "Tenant Name", "Telephone Number",
   "Previous Payment Date", "Next Payment Due Date", "Payment Status"]

/-- A loaded table as `pandas` presents it: a row count and the named
columns in order, each holding one text cell per row. -/
structure Df where
  nrows : Nat
  cols : List (String × List String)
deriving DecidableEq

/-- `col in history_df.columns` — whether a column of that name exists. -/
def hasCol (cols : List (String × List String)) (c : String) : Bool :=
  cols.any fun p => p.1 == c

/-- Look up a column by name (first match, as a `pandas` column access). -/
def getCol (cols : List (String × List String)) (c : String) :
    Option (List String) :=
  (cols.find? fun p => p.1 == c).map Prod.snd

/-- The migration loop of `load_history` (src/app2.py lines 34-36): for
each required column not present, `history_df[col] = ""` appends a new
column whose every cell is the empty string. -/
def migrate_cols (n : Nat) (cols : List (String × List String)) :
    List (String × List String) :=
  required_cols.foldl
    (fun acc c =>
      if hasCol acc c then acc else acc ++ [(c, List.replicate n "")])
    cols

def ensure_required_cols (df : Df) : Df :=
  { df with cols := migrate_cols df.nrows df.cols }

/-- `load_history` (src/app2.py lines 23-43): an existing file is read and
migrated; a missing file yields the empty table with exactly the required
columns. -/
def load_history (stored : Option Df) : Df :=
  match stored with
  | some df => ensure_required_cols df
  | none => { nrows := 0, cols := required_cols.map fun c => (c, []) }

/-- Appending a column does not change presence of an existing name. -/
theorem hasCol_append_one (acc : List (String × List String))
    (p : String × List String) (c : String) :
    hasCol (acc ++ [p]) c = (hasCol acc c || p.1 == c) := by
  simp [hasCol, List.any_append]

/-- Appending a column does not change the lookup of a name already
present. -/
theorem getCol_append_of_hasCol (acc : List (String × List String))
    (p : String × List String) (c : String) (h : hasCol acc c = true) :
    getCol (acc ++ [p]) c = getCol acc c := by
  unfold getCol
  rw [List.find?_append]
  obtain ⟨x, hx, hpx⟩ := List.any_eq_true.mp h
  have hsome : (acc.find? fun q => q.1 == c).isSome := by
    rw [List.find?_isSome]
    exact ⟨x, hx, hpx⟩
  obtain ⟨v, hv⟩ := Option.isSome_iff_exists.mp hsome
  simp [hv]

/-- Appending a column of name `c` to a table lacking `c` makes its lookup
return exactly that column. -/
theorem getCol_append_of_missing (acc : List (String × List String))
    (c : String) (v : List String) (h : hasCol acc c = false) :
    getCol (acc ++ [(c, v)]) c = some v := by
  unfold getCol
  rw [List.find?_append]
  have hnone : (acc.find? fun q => q.1 == c) = none := by
    rw [List.find?_eq_none]
    intro x hx
    have := List.any_eq_false.mp h x hx
    simpa using this
  simp [hnone, List.find?]

/-- The migration fold never removes a column already present. -/
theorem fold_hasCol_mono (n : Nat) (cs : List String)
    (acc : List (String × List String)) (c : String)
    (h : hasCol acc c = true) :
    hasCol
      (cs.foldl
        (fun a col =>
          if hasCol a col then a else a ++ [(col, List.replicate n "")])
        acc) c = true := by
  induction cs generalizing acc with
  | nil => exact h
  | cons c0 rest ih =>
    simp only [List.foldl_cons]
    split
    · exact ih acc h
    · refine ih _ ?_
      rw [hasCol_append_one]
      simp [h]

/-- The migration fold does not change the lookup of a column already
present. -/
theorem fold_getCol_of_hasCol (n : Nat) (cs : List String)
    (acc : List (String × List String)) (c : String)
    (h : hasCol acc c = true) :
    getCol
      (cs.foldl
        (fun a col =>
          if hasCol a col then a else a ++ [(col, List.replicate n "")])
        acc) c = getCol acc c := by
  induction cs generalizing acc with
  | nil => rfl
  | cons c0 rest ih =>
    simp only [List.foldl_cons]
    split
    · exact ih acc h
    · rw [ih _ (by rw [hasCol_append_one]; simp [h])]
      exact getCol_append_of_hasCol acc _ c h

/-- Every column named in the fold list is present afterwards. -/
theorem fold_hasCol_of_mem (n : Nat) (cs : List String)
    (acc : List (String × List String)) (c : String) (hc : c ∈ cs) :
    hasCol
      (cs.foldl
        (fun a col =>
          if hasCol a col then a else a ++ [(col, List.replicate n "")])
        acc) c = true := by
  induction cs generalizing acc with
  | nil => cases hc
  | cons c0 rest ih =>
    simp only [List.foldl_cons]
    rcases List.mem_cons.mp hc with rfl | hmem
    · by_cases h : hasCol acc c = true
      · rw [if_pos h]
        exact fold_hasCol_mono n rest acc c h
      · rw [if_neg h]
        refine fold_hasCol_mono n rest _ c ?_
        rw [hasCol_append_one]
        simp
    · split
      · exact ih acc hmem
      · exact ih _ hmem

/-- A column named in the fold list but missing from the table is added by
the fold with every cell the empty string. -/
theorem fold_getCol_of_missing (n : Nat) (cs : List String)
    (acc : List (String × List String)) (c : String) (hc : c ∈ cs)
    (h : hasCol acc c = false) :
    getCol
      (cs.foldl
        (fun a col =>
          if hasCol a col then a else a ++ [(col, List.replicate n "")])
        acc) c = some (List.replicate n "") := by
  induction cs generalizing acc with
  | nil => cases hc
  | cons c0 rest ih =>
    simp only [List.foldl_cons]
    by_cases he : c0 = c
    · subst he
      rw [if_neg (by simp [h])]
      rw [fold_getCol_of_hasCol n rest _ c0
        (by rw [hasCol_append_one]; simp)]
      exact getCol_append_of_missing acc c0 _ h
    · rcases List.mem_cons.mp hc with rfl | hmem
      · exact absurd rfl (Ne.symm he)
      · split
        · exact ih acc hmem h
        · refine ih _ hmem ?_
          rw [hasCol_append_one, h]
          simpa using fun hx => he hx

/-- C8: loading a persisted table leaves every column that was already
present untouched, adds every missing required column with the empty-text
default, and afterwards all seventeen required columns are present. -/
theorem load_history_schema (df : Df) :
    (∀ c ∈ required_cols, hasCol (load_history (some df)).cols c = true) ∧
    (∀ c, hasCol df.cols c = true →
      getCol (load_history (some df)).cols c = getCol df.cols c) ∧
    (∀ c ∈ required_cols, hasCol df.cols c = false →
      getCol (load_history (some df)).cols c =
        some (List.replicate df.nrows "")) := by
  have h1 : load_history (some df) = ensure_required_cols df := rfl
  have h2 : ensure_required_cols df =
      { df with cols := migrate_cols df.nrows df.cols } := rfl
  have hcols : (load_history (some df)).cols = migrate_cols df.nrows df.cols := by
    rw [h1, h2]
  refine ⟨?_, ?_, ?_⟩
  · intro c hc
    rw [hcols]
    unfold migrate_cols
    exact fold_hasCol_of_mem df.nrows required_cols df.cols c hc
  · intro c hc
    rw [hcols]
    unfold migrate_cols
    exact fold_getCol_of_hasCol df.nrows required_cols df.cols c hc
  · intro c hc h
    rw [hcols]
    unfold migrate_cols
    exact fold_getCol_of_missing df.nrows required_cols df.cols c hc h

/-- A concrete persisted table with one row and a single column. -/
def sampleDf : Df := { nrows := 1, cols := [("BHK", ["1"])] }

set_option maxHeartbeats 2000000 in
/-- Witness for C8 on `sampleDf`: the missing required column `City` is
added with one empty cell, the present column `BHK` keeps its data, and
`City` is present after the load. -/
theorem load_history_schema_witness :
    ("City" ∈ required_cols ∧
      hasCol (load_history (some sampleDf)).cols "City" = true) ∧
    (hasCol sampleDf.cols "BHK" = true ∧
      getCol (load_history (some sampleDf)).cols "BHK" =
        getCol sampleDf.cols "BHK") ∧
    ("City" ∈ required_cols ∧ hasCol sampleDf.cols "City" = false ∧
      getCol (load_history (some sampleDf)).cols "City" =
        some (List.replicate sampleDf.nrows "")) :=
  ⟨⟨by decide, (load_history_schema sampleDf).1 "City" (by decide)⟩,
   ⟨by decide, (load_history_schema sampleDf).2.1 "BHK" (by decide)⟩,
   ⟨by decide, by decide,
     (load_history_schema sampleDf).2.2 "City" (by decide) (by decide)⟩⟩
